import Mathlib

/-!
Shallow embedding of `app.py`, a Streamlit dashboard that compares Korean
stock prices for up to three companies selected by display name.

External collaborators are parameters of the embedding:
* the KRX listing page is modelled as the raw parsed table, a
  `List (String × Nat)` of (회사명, numeric 종목코드) pairs, fed to
  `get_krx_company_list`;
* `fdr.DataReader` is modelled as a function `String → Except Unit (List Obs)`
  (an `Except.error` stands for any exception the call may raise, an
  `Except.ok` for the returned frame, possibly empty).

Pandas frames are lists of rows; prices are rationals; a raised Python
exception is an `Except.error`.
-/

deriving instance DecidableEq for Except

namespace StockApp

/-- One row of the cached KRX company directory produced by
`get_krx_company_list`: display name (회사명) and ticker code (종목코드). -/
structure DirEntry where
  name : String
  code : String
  deriving DecidableEq

/-- Embedding of the Python format expression `f"{x:06}"` applied to a raw
numeric ticker code: the decimal representation of `x`, left-padded with
the character 0 to a minimum width of 6. -/
def pad6 (x : Nat) : String :=
  if (Nat.repr x).length < 6 then
    String.mk (List.replicate (6 - (Nat.repr x).length) '0' ++ (Nat.repr x).data)
  else Nat.repr x

/-- Embedding of `get_krx_company_list`: keep the 회사명 and 종목코드
columns of the parsed HTML table and reformat every raw numeric code with
`f"{x:06}"`.  The network fetch and HTML parse are external, so the raw
parsed table is a parameter. -/
def get_krx_company_list (raw : List (String × Nat)) : List DirEntry :=
  raw.map (fun p => DirEntry.mk p.1 (pad6 p.2))

/-- The message of the `ValueError` raised by `get_stock_code_by_company`. -/
def notFoundMsg (company_name : String) : String :=
  "'" ++ company_name ++ "'을(를) 찾을 수 없습니다."

/-- Embedding of `get_stock_code_by_company`: select the directory rows whose
회사명 equals `company_name`; if that selection is empty raise `ValueError`,
otherwise return `.iloc[0]`, the first selected 종목코드. -/
def get_stock_code_by_company (df : List DirEntry) (company_name : String) :
    Except String String :=
  match df.filter (fun e => e.name == company_name) with
  | [] => Except.error (notFoundMsg company_name)
  | e :: _ => Except.ok e.code

/-- One daily price observation, a row of the frame returned by
`fdr.DataReader` after `reset_index()`: the columns Date, Open, High, Low,
Close, Volume. -/
structure Obs where
  Date : Int
  Open : ℚ
  High : ℚ
  Low : ℚ
  Close : ℚ
  Volume : ℚ
  deriving DecidableEq, Inhabited

/-- The body of the `try` block of the retrieval loop for one company:
resolve the ticker code with `get_stock_code_by_company`, then call
`fdr.DataReader(code, start_date, end_date)` — the latter is external and is
passed in as `dataReader`.  An exception raised by either step surfaces as
`Except.error`, matched by the loop's `except` clause. -/
def retrieveOne (df : List DirEntry) (dataReader : String → Except Unit (List Obs))
    (company : String) : Except Unit (List Obs) :=
  match get_stock_code_by_company df company with
  | Except.error _ => Except.error ()
  | Except.ok code => dataReader code

/-- Does the retrieval of `company` count as a failure in the loop?  True
when resolve-or-fetch raises, or when the fetched frame is empty. -/
def companyFails (retrieve : String → Except Unit (List Obs)) (company : String) : Bool :=
  match retrieve company with
  | Except.error _ => true
  | Except.ok df => df.isEmpty

/-- The frame a successful retrieval stores in `price_data` (and `[]` on a
failure, where the loop stores nothing). -/
def dfOf (retrieve : String → Except Unit (List Obs)) (company : String) : List Obs :=
  match retrieve company with
  | Except.error _ => []
  | Except.ok df => df

/-- One iteration of the retrieval `for` loop over `selected_companies`:
on an exception from resolve-or-fetch, or on an empty frame, append the
company to `failed_companies`; otherwise insert `(company, df)` into
`price_data`.  The accumulator is the pair (`price_data` as an insertion-order
association list, `failed_companies`). -/
def fetchLoopStep (retrieve : String → Except Unit (List Obs))
    (acc : List (String × List Obs) × List String) (company : String) :
    List (String × List Obs) × List String :=
  match retrieve company with
  | Except.error _ => (acc.1, acc.2 ++ [company])
  | Except.ok df =>
    if df.isEmpty then (acc.1, acc.2 ++ [company])
    else (acc.1 ++ [(company, df)], acc.2)

/-- The whole retrieval loop: starting from an empty `price_data` dict and an
empty `failed_companies` list, run `fetchLoopStep` over the selected
companies in order. -/
def fetchLoop (retrieve : String → Except Unit (List Obs))
    (selected : List String) : List (String × List Obs) × List String :=
  selected.foldl (fetchLoopStep retrieve) ([], [])

/-- Outcome of the button-triggered multi-company flow, up to the point where
rendering starts. -/
inductive FlowResult where
  | stoppedNoCompanies
  | stoppedBadDates
  | stoppedNoData (failed : List String)
  | rendered (priceData : List (String × List Obs)) (failed : List String)
  deriving DecidableEq

/-- Embedding of the guarded flow under `if confirm_btn:`: stop with a warning
when no company is selected or when the date input does not hold two dates;
otherwise run the retrieval loop, stop with `st.error` when `price_data` is
empty, and otherwise proceed to the rendering sections with the collected
data. -/
def multiCompanyFlow (retrieve : String → Except Unit (List Obs))
    (selected : List String) (nDates : Nat) : FlowResult :=
  if selected.isEmpty then FlowResult.stoppedNoCompanies
  else if nDates ≠ 2 then FlowResult.stoppedBadDates
  else
    let r := fetchLoop retrieve selected
    if r.1.isEmpty then FlowResult.stoppedNoData r.2
    else FlowResult.rendered r.1 r.2

/-- Did the flow hit `st.error("조회 가능한 데이터가 없습니다.")` followed by
`st.stop()` — i.e. report an error and halt before any chart, table or export
rendering? -/
def haltsWithError : FlowResult → Bool
  | FlowResult.stoppedNoData _ => true
  | _ => false

/-- Did the flow reach the rendering sections (normalized chart, returns
table, optional candlesticks, spreadsheet export)? -/
def rendersOutput : FlowResult → Bool
  | FlowResult.rendered _ _ => true
  | _ => false

/-- Embedding of the normalisation block run for each entry of `price_data`:
`base = df["Close"].iloc[0]` and `df["Normalized"] = df["Close"] / base * 100`.
The loop only ever evaluates it on the non-empty frames stored in
`price_data` (on an empty frame `iloc[0]` would raise); on `[]` we return
`[]`. -/
def normalizedSeries : List Obs → List ℚ
  | [] => []
  | r0 :: rest => (r0 :: rest).map (fun r => r.Close / r0.Close * 100)

/-- Round half to even (banker's rounding) to an integer, the rounding of
Python's built-in `round`. -/
def roundHalfEven (x : ℚ) : ℤ :=
  let f := ⌊x⌋
  if x - f < 1 / 2 then f
  else if 1 / 2 < x - f then f + 1
  else if f % 2 = 0 then f else f + 1

/-- Embedding of Python's `round(x, 2)`: round half to even at two decimal
places. -/
def round2 (x : ℚ) : ℚ := (roundHalfEven (x * 100) : ℚ) / 100

/-- One row of the `returns` table, with columns 기업명 (`company`),
시작 종가 (`startClose`), 마지막 종가 (`endClose`), 수익률(%) (`retPct`). -/
structure ReturnRow where
  company : String
  startClose : ℚ
  endClose : ℚ
  retPct : ℚ
  deriving DecidableEq

/-- One iteration of the returns loop:
`ret = (df["Close"].iloc[-1] / df["Close"].iloc[0] - 1) * 100` and a row with
the start close, the last close and `ret`, each rounded to two decimals.
`iloc[0]` and `iloc[-1]` are rendered total via `head?`/`getLast?` with a
default; the loop only runs on the non-empty frames of `price_data`. -/
def mkReturnRow (company : String) (df : List Obs) : ReturnRow :=
  let first := (df.head?.getD default).Close
  let last := (df.getLast?.getD default).Close
  let ret := (last / first - 1) * 100
  ReturnRow.mk company (round2 first) (round2 last) (round2 ret)

/-- The `returns` list built by the loop over `price_data`, one row per
stored company, in insertion order. -/
def returnsTable (priceData : List (String × List Obs)) : List ReturnRow :=
  priceData.map (fun p => mkReturnRow p.1 p.2)

/-- The descending order on rows used by
`sort_values("수익률(%)", ascending=False)`. -/
def descByRet (a b : ReturnRow) : Prop := b.retPct ≤ a.retPct

instance : DecidableRel descByRet :=
  fun a b => inferInstanceAs (Decidable (b.retPct ≤ a.retPct))

instance : IsTotal ReturnRow descByRet :=
  ⟨fun a b => le_total b.retPct a.retPct⟩

instance : IsTrans ReturnRow descByRet :=
  ⟨fun _ _ _ h1 h2 => le_trans h2 h1⟩

/-- The displayed return-summary table:
`pd.DataFrame(returns).sort_values("수익률(%)", ascending=False)` — the rows
of `returnsTable`, reordered so that 수익률(%) is descending. -/
def sortedReturnsTable (priceData : List (String × List Obs)) : List ReturnRow :=
  List.insertionSort descByRet (returnsTable priceData)

/-- The spreadsheet-export loop over `price_data`: for each stored company one
sheet, named `company[:30]` (the first 30 characters of the name) and holding
the company's full frame, all written into one workbook. -/
def excelExport (priceData : List (String × List Obs)) : List (String × List Obs) :=
  priceData.map (fun p => (String.mk (p.1.data.take 30), p.2))

/-! ### Concrete data used by witnesses and counterexamples -/

/-- A small parsed KRX listing table. -/
def sampleRaw : List (String × Nat) := [("삼성전자", 5930), ("카카오", 35720)]

/-- The cached directory built from `sampleRaw`. -/
def sampleDir : List DirEntry := get_krx_company_list sampleRaw

/-- A directory in which two entries share the display name X. -/
def dupDir : List DirEntry :=
  [DirEntry.mk "Y" "000009", DirEntry.mk "X" "000001", DirEntry.mk "X" "000002"]

/-! ### Resolver lemmas -/

/-- When no directory row matches the requested name, the filtered 종목코드
column is empty and the resolver raises its ValueError. -/
theorem get_stock_code_not_found (df : List DirEntry) (company_name : String)
    (h : ∀ e ∈ df, e.name ≠ company_name) :
    get_stock_code_by_company df company_name = Except.error (notFoundMsg company_name) := by
  unfold get_stock_code_by_company
  have hf : df.filter (fun e => e.name == company_name) = [] := by
    rw [List.filter_eq_nil_iff]
    intro e he
    simpa using h e he
  rw [hf]

/-- A successful resolution returns the 종목코드 of some directory row whose
회사명 matches the request. -/
theorem get_stock_code_ok (df : List DirEntry) (company_name c : String)
    (h : get_stock_code_by_company df company_name = Except.ok c) :
    ∃ e ∈ df, e.name = company_name ∧ e.code = c := by
  unfold get_stock_code_by_company at h
  cases hf : df.filter (fun e => e.name == company_name) with
  | nil => rw [hf] at h; cases h
  | cons e rest =>
    rw [hf] at h
    have hec : e.code = c := by
      injection h
    have he : e ∈ df.filter (fun e => e.name == company_name) := by
      rw [hf]; exact List.mem_cons_self e rest
    have hm := List.mem_filter.mp he
    exact ⟨e, hm.1, by simpa using hm.2, hec⟩

/-- The `f"{x:06}"` formatting yields exactly six characters whenever the raw
numeric code has at most six decimal digits. -/
theorem pad6_length (x : Nat) (hx : x < 10 ^ 6) : (pad6 x).length = 6 := by
  have h6 : (Nat.repr x).length ≤ 6 := Nat.repr_length x 6 (by norm_num) hx
  have hdata : (Nat.repr x).data.length = (Nat.repr x).length := rfl
  unfold pad6
  split
  · next hlt =>
    show (List.replicate (6 - (Nat.repr x).length) '0' ++ (Nat.repr x).data).length = 6
    rw [List.length_append, List.length_replicate, hdata]
    omega
  · next hge => omega

/-! ### Claims about the resolver and the directory -/

/-- C1 counterexample: the identifier "000020" consists of exactly 6 digits,
yet on a directory that does not list it as a 회사명 the resolver raises its
ValueError instead of returning the identifier unchanged — the code always
consults the directory and has no 6-digit shortcut. -/
theorem c1_counterexample :
    ("000020" : String).length = 6 ∧
    (∀ ch ∈ ("000020" : String).data, ch.isDigit = true) ∧
    get_stock_code_by_company sampleDir "000020" = Except.error (notFoundMsg "000020") ∧
    get_stock_code_by_company sampleDir "000020" ≠ Except.ok "000020" :=
  ⟨by decide, by decide, by decide, by decide⟩

/-- C1 (amended): `get_stock_code_by_company` treats a 6-digit identifier
like any other identifier: it looks it up in the 회사명 column, and when no
row matches it raises the not-found ValueError rather than returning the
identifier unchanged. -/
theorem c1_six_digit_no_shortcut (df : List DirEntry) (identifier : String)
    (hlen : identifier.length = 6) (hdig : ∀ ch ∈ identifier.data, ch.isDigit = true)
    (hnomatch : ∀ e ∈ df, e.name ≠ identifier) :
    get_stock_code_by_company df identifier = Except.error (notFoundMsg identifier) :=
  get_stock_code_not_found df identifier hnomatch

theorem c1_six_digit_no_shortcut_witness :
    get_stock_code_by_company sampleDir "000020" = Except.error (notFoundMsg "000020") :=
  c1_six_digit_no_shortcut sampleDir "000020" (by decide) (by decide) (by decide)

/-- C2: an identifier with no exact match in the 회사명 column of the
directory (and which is not a 6-digit code) makes the resolver raise its
not-found ValueError rather than return a value. -/
theorem c2_unmatched_identifier_raises (df : List DirEntry) (identifier : String)
    (hnot6 : ¬ (identifier.length = 6 ∧ ∀ ch ∈ identifier.data, ch.isDigit = true))
    (hnomatch : ∀ e ∈ df, e.name ≠ identifier) :
    get_stock_code_by_company df identifier = Except.error (notFoundMsg identifier) :=
  get_stock_code_not_found df identifier hnomatch

theorem c2_unmatched_identifier_raises_witness :
    get_stock_code_by_company sampleDir "NoSuchCompany" =
      Except.error (notFoundMsg "NoSuchCompany") :=
  c2_unmatched_identifier_raises sampleDir "NoSuchCompany" (by decide) (by decide)

/-- C9 counterexample: a raw numeric code with seven decimal digits is
neither truncated nor rejected by the `f"{x:06}"` formatting, so the
directory built from it holds a 7-character 종목코드 — ticker codes are not
always exactly 6 characters. -/
theorem c9_counterexample :
    get_krx_company_list [("SevenDigitCode", 1000000)] =
      [DirEntry.mk "SevenDigitCode" "1000000"] ∧
    ("1000000" : String).length ≠ 6 :=
  ⟨by decide, by decide⟩

/-- C9 (amended): when every raw numeric code in the parsed listing has at
most six decimal digits (is below 10^6), every 종목코드 in the cached
directory is a string of exactly six characters, zero-padded on the left,
and consequently every value returned by a successful resolver lookup on
such a directory is a 6-character string. -/
theorem c9_codes_length_six (raw : List (String × Nat))
    (hb : ∀ p ∈ raw, p.2 < 10 ^ 6) :
    (∀ e ∈ get_krx_company_list raw, e.code.length = 6) ∧
    (∀ identifier c,
      get_stock_code_by_company (get_krx_company_list raw) identifier = Except.ok c →
        c.length = 6) := by
  have hall : ∀ e ∈ get_krx_company_list raw, e.code.length = 6 := by
    intro e he
    unfold get_krx_company_list at he
    obtain ⟨p, hp, rfl⟩ := List.mem_map.mp he
    exact pad6_length p.2 (hb p hp)
  refine ⟨hall, ?_⟩
  intro identifier c hok
  obtain ⟨e, he, _, hcode⟩ := get_stock_code_ok _ identifier c hok
  exact hcode ▸ hall e he

theorem c9_codes_length_six_witness :
    (DirEntry.mk "삼성전자" (pad6 5930)).code.length = 6 :=
  (c9_codes_length_six sampleRaw (by decide)).1
    (DirEntry.mk "삼성전자" (pad6 5930)) (by decide)

/-- C10: when two or more directory entries share the same display name, the
resolver returns `iloc[0]` of the filtered column — the 종목코드 of the first
matching entry in directory order — and does not raise. -/
theorem c10_duplicate_names_first_match (df : List DirEntry) (company_name : String)
    (pre : List DirEntry) (e : DirEntry) (post : List DirEntry)
    (hdf : df = pre ++ e :: post) (he : e.name = company_name)
    (hpre : ∀ x ∈ pre, x.name ≠ company_name) :
    get_stock_code_by_company df company_name = Except.ok e.code := by
  subst hdf
  unfold get_stock_code_by_company
  rw [List.filter_append]
  have h1 : pre.filter (fun x => x.name == company_name) = [] := by
    rw [List.filter_eq_nil_iff]
    intro x hx
    simpa using hpre x hx
  rw [h1, List.filter_cons]
  simp [he]

theorem c10_duplicate_names_first_match_witness :
    get_stock_code_by_company dupDir "X" = Except.ok "000001" :=
  c10_duplicate_names_first_match dupDir "X" [DirEntry.mk "Y" "000009"]
    (DirEntry.mk "X" "000001") [DirEntry.mk "X" "000002"] rfl rfl (by decide)

/-! ### Concrete frames and retrieval functions for witnesses -/

/-- A concrete observation row with close 100. -/
def obsA : Obs := Obs.mk 0 100 100 100 100 0

/-- A concrete observation row with close 120. -/
def obsB : Obs := Obs.mk 1 120 120 120 120 0

/-- A concrete two-day frame whose closes are 100 and 120. -/
def df1 : List Obs := [obsA, obsB]

/-- A concrete retrieval function: company A fetches `df1`, company E gets an
empty frame, and every other company raises. -/
def retrieveW : String → Except Unit (List Obs) :=
  fun company =>
    if company = "A" then Except.ok df1
    else if company = "E" then Except.ok []
    else Except.error ()

/-! ### The retrieval loop -/

/-- A failing company's iteration appends it to `failed_companies` and leaves
`price_data` unchanged. -/
theorem fetchLoopStep_fail (retrieve : String → Except Unit (List Obs))
    (acc : List (String × List Obs) × List String) (company : String)
    (h : companyFails retrieve company = true) :
    fetchLoopStep retrieve acc company = (acc.1, acc.2 ++ [company]) := by
  cases hr : retrieve company with
  | error e => simp [fetchLoopStep, hr]
  | ok df =>
    have hdf : df.isEmpty = true := by simpa [companyFails, hr] using h
    simp [fetchLoopStep, hr, hdf]

/-- A succeeding company's iteration stores its frame in `price_data` and
leaves `failed_companies` unchanged. -/
theorem fetchLoopStep_succ (retrieve : String → Except Unit (List Obs))
    (acc : List (String × List Obs) × List String) (company : String)
    (h : companyFails retrieve company = false) :
    fetchLoopStep retrieve acc company =
      (acc.1 ++ [(company, dfOf retrieve company)], acc.2) := by
  cases hr : retrieve company with
  | error e =>
    have hcon : companyFails retrieve company = true := by
      simp [companyFails, hr]
    rw [hcon] at h
    cases h
  | ok df =>
    have hdf : df.isEmpty = false := by simpa [companyFails, hr] using h
    simp [fetchLoopStep, dfOf, hr, hdf]

/-- Running the loop from any accumulator appends the failing companies to
its failed list and the successful (company, frame) pairs to its price
data, in selection order. -/
theorem fetchLoop_go (retrieve : String → Except Unit (List Obs))
    (selected : List String) :
    ∀ acc, selected.foldl (fetchLoopStep retrieve) acc =
      (acc.1 ++ (selected.filter (fun c => !companyFails retrieve c)).map
          (fun c => (c, dfOf retrieve c)),
       acc.2 ++ selected.filter (fun c => companyFails retrieve c)) := by
  induction selected with
  | nil => intro acc; simp
  | cons c rest ih =>
    intro acc
    rw [List.foldl_cons]
    by_cases hc : companyFails retrieve c = true
    · rw [fetchLoopStep_fail retrieve acc c hc, ih]
      simp [List.filter_cons, hc]
    · have hc' : companyFails retrieve c = false := by simpa using hc
      rw [fetchLoopStep_succ retrieve acc c hc', ih]
      simp [List.filter_cons, hc']

/-- Closed form of the retrieval loop: `price_data` holds exactly the
successful companies with their frames, `failed_companies` exactly the
failing ones, each in selection order. -/
theorem fetchLoop_eq (retrieve : String → Except Unit (List Obs))
    (selected : List String) :
    fetchLoop retrieve selected =
      ((selected.filter (fun c => !companyFails retrieve c)).map
          (fun c => (c, dfOf retrieve c)),
       selected.filter (fun c => companyFails retrieve c)) := by
  unfold fetchLoop
  rw [fetchLoop_go]
  simp

/-- Splitting a list by a boolean predicate preserves total length. -/
theorem length_filter_add_length_filter_not (p : α → Bool) (l : List α) :
    (l.filter p).length + (l.filter (fun a => !p a)).length = l.length := by
  induction l with
  | nil => rfl
  | cons a l ih =>
    cases h : p a with
    | true =>
      simp [List.filter_cons, h]
      omega
    | false =>
      simp [List.filter_cons, h]
      omega

/-- C3: the retrieval loop processes every selected company: one that raises
or returns an empty frame is put on `failed_companies` and stores nothing in
`price_data`, one that succeeds with a non-empty frame appears in
`price_data` with its frame, and the two parts together account for every
selected company — no single failure aborts the loop. -/
theorem c3_partial_failure (retrieve : String → Except Unit (List Obs))
    (selected : List String) (company : String) (hmem : company ∈ selected) :
    (companyFails retrieve company = true →
        company ∈ (fetchLoop retrieve selected).2 ∧
        company ∉ (fetchLoop retrieve selected).1.map Prod.fst) ∧
    (companyFails retrieve company = false →
        (company, dfOf retrieve company) ∈ (fetchLoop retrieve selected).1) ∧
    (fetchLoop retrieve selected).1.length + (fetchLoop retrieve selected).2.length =
      selected.length := by
  rw [fetchLoop_eq]
  refine ⟨?_, ?_, ?_⟩
  · intro hf
    constructor
    · exact List.mem_filter.mpr ⟨hmem, by simp [hf]⟩
    · intro hcon
      rw [List.map_map] at hcon
      have hmm : company ∈ selected.filter (fun c => !companyFails retrieve c) := by
        simpa [Function.comp] using hcon
      have := (List.mem_filter.mp hmm).2
      simp [hf] at this
  · intro hf
    exact List.mem_map.mpr ⟨company, List.mem_filter.mpr ⟨hmem, by simp [hf]⟩, rfl⟩
  · rw [List.length_map, Nat.add_comm]
    exact length_filter_add_length_filter_not (fun c => companyFails retrieve c) selected

theorem c3_partial_failure_witness :
    ("B" ∈ (fetchLoop retrieveW ["A", "B"]).2 ∧
      "B" ∉ (fetchLoop retrieveW ["A", "B"]).1.map Prod.fst) ∧
    ("A", dfOf retrieveW "A") ∈ (fetchLoop retrieveW ["A", "B"]).1 ∧
    (fetchLoop retrieveW ["A", "B"]).1.length + (fetchLoop retrieveW ["A", "B"]).2.length = 2 :=
  ⟨(c3_partial_failure retrieveW ["A", "B"] "B" (by decide)).1 (by decide),
   (c3_partial_failure retrieveW ["A", "B"] "A" (by decide)).2.1 (by decide),
   (c3_partial_failure retrieveW ["A", "B"] "A" (by decide)).2.2⟩

/-- `price_data` stays empty exactly when every selected company fails. -/
theorem priceData_empty_iff (retrieve : String → Except Unit (List Obs))
    (selected : List String) :
    ((fetchLoop retrieve selected).1.isEmpty = true ↔
      ∀ c ∈ selected, companyFails retrieve c = true) := by
  rw [fetchLoop_eq]
  simp [List.isEmpty_iff, List.filter_eq_nil_iff]

/-- C4: with a non-empty selection and a two-date range, the multi-company
flow reports `st.error` and stops before any chart, table or export
rendering exactly when every selected company failed or returned an empty
frame, and it reaches the rendering sections exactly when at least one
company succeeded. -/
theorem c4_abort_iff_all_failed (retrieve : String → Except Unit (List Obs))
    (selected : List String) (hne : selected ≠ []) :
    (haltsWithError (multiCompanyFlow retrieve selected 2) = true ↔
      ∀ c ∈ selected, companyFails retrieve c = true) ∧
    (rendersOutput (multiCompanyFlow retrieve selected 2) = true ↔
      ∃ c ∈ selected, companyFails retrieve c = false) := by
  have hsel : selected.isEmpty = false := by simpa [List.isEmpty_iff] using hne
  by_cases hpd : (fetchLoop retrieve selected).1.isEmpty = true
  · have hall := (priceData_empty_iff retrieve selected).mp hpd
    constructor
    · simp [multiCompanyFlow, hsel, hpd, haltsWithError]
      exact hall
    · simp only [multiCompanyFlow, hsel, hpd]
      simp [rendersOutput]
      intro c hc
      simp [hall c hc]
  · have hpd' : (fetchLoop retrieve selected).1.isEmpty = false := by
      simpa using hpd
    have hnall : ¬ ∀ c ∈ selected, companyFails retrieve c = true := by
      rw [← priceData_empty_iff]
      simp [hpd']
    constructor
    · simp [multiCompanyFlow, hsel, hpd', haltsWithError, hnall]
    · simp only [multiCompanyFlow, hsel, hpd']
      simp [rendersOutput]
      push_neg at hnall
      obtain ⟨c, hc, hfc⟩ := hnall
      exact ⟨c, hc, by simpa using hfc⟩

theorem c4_abort_iff_all_failed_witness :
    haltsWithError (multiCompanyFlow retrieveW ["C", "E"] 2) = true ∧
    rendersOutput (multiCompanyFlow retrieveW ["A", "B"] 2) = true :=
  ⟨((c4_abort_iff_all_failed retrieveW ["C", "E"] (by decide)).1).mpr (by decide),
   ((c4_abort_iff_all_failed retrieveW ["A", "B"] (by decide)).2).mpr (by decide)⟩

/-! ### Normalisation, returns table and export -/

/-- C5: on a non-empty frame whose first close is nonzero, the Normalized
column starts at exactly 100, and the whole column is
Close / Close[first] × 100 — computed from that frame alone, hence per
company independently. -/
theorem c5_normalized_first_is_100 (df : List Obs) (r0 : Obs) (rest : List Obs)
    (hdf : df = r0 :: rest) (hbase : r0.Close ≠ 0) :
    (normalizedSeries df).head? = some 100 ∧
    normalizedSeries df = df.map (fun r => r.Close / r0.Close * 100) := by
  subst hdf
  refine ⟨?_, rfl⟩
  simp [normalizedSeries, div_self hbase]

theorem c5_normalized_first_is_100_witness :
    (normalizedSeries df1).head? = some 100 ∧
    normalizedSeries df1 = df1.map (fun r => r.Close / obsA.Close * 100) :=
  c5_normalized_first_is_100 df1 obsA [obsB] rfl (by simp [obsA])

/-- C6: on a non-empty frame the 수익률(%) cell equals
(Close[last] / Close[first] − 1) × 100 rounded to two decimal places. -/
theorem c6_return_pct (company : String) (df : List Obs) (r0 : Obs) (rest : List Obs)
    (hdf : df = r0 :: rest) :
    (mkReturnRow company df).retPct =
      round2 (((df.getLast (by simp [hdf])).Close / r0.Close - 1) * 100) := by
  subst hdf
  simp only [mkReturnRow,
    List.getLast?_eq_getLast_of_ne_nil (List.cons_ne_nil r0 rest),
    List.head?_cons, Option.getD_some]

theorem c6_return_pct_witness :
    (mkReturnRow "삼성전자" df1).retPct =
      round2 (((df1.getLast (by simp [df1])).Close / obsA.Close - 1) * 100) ∧
    (mkReturnRow "삼성전자" df1).retPct = 20 := by
  have h1 := c6_return_pct "삼성전자" df1 obsA [obsB] rfl
  refine ⟨h1, ?_⟩
  rw [h1]
  show round2 ((((120 : ℚ) / 100) - 1) * 100) = 20
  norm_num [round2, roundHalfEven]

@[simp] theorem mkReturnRow_company (company : String) (df : List Obs) :
    (mkReturnRow company df).company = company := rfl

/-- C7: the displayed return-summary table has exactly one row per company
stored in `price_data` (its 기업명 column is a permutation of the stored
company names) and its rows are sorted so that 수익률(%) is descending. -/
theorem c7_summary_one_row_per_company_sorted_desc
    (priceData : List (String × List Obs)) :
    List.Perm ((sortedReturnsTable priceData).map (fun r => r.company))
      (priceData.map Prod.fst) ∧
    List.Sorted descByRet (sortedReturnsTable priceData) := by
  constructor
  · have hperm :=
      (List.perm_insertionSort descByRet (returnsTable priceData)).map
        (fun r => r.company)
    simpa [sortedReturnsTable, returnsTable] using hperm
  · exact List.sorted_insertionSort descByRet (returnsTable priceData)

/-- C8: the workbook written by the export loop holds exactly one sheet per
company stored in `price_data`, in order: the sheet contents are exactly the
stored frames, each sheet name is the company name cut to its first 30
characters, and so no sheet name exceeds 30 characters. -/
theorem c8_one_sheet_per_company (priceData : List (String × List Obs)) :
    (excelExport priceData).length = priceData.length ∧
    (excelExport priceData).map Prod.snd = priceData.map Prod.snd ∧
    (excelExport priceData).map Prod.fst =
      priceData.map (fun p => String.mk (p.1.data.take 30)) ∧
    ∀ s ∈ excelExport priceData, s.1.length ≤ 30 := by
  refine ⟨by simp [excelExport], by simp [excelExport], by simp [excelExport], ?_⟩
  intro s hs
  obtain ⟨p, _, rfl⟩ := List.mem_map.mp hs
  show (p.1.data.take 30).length ≤ 30
  exact List.length_take_le 30 p.1.data

/-- A company name of 35 characters, long enough to exercise the sheet-name
truncation. -/
def longName : String :=
  "가나다라마바사아자차카타파하가나다라마바사아자차카타파하가나다라마바사"

/-- A one-company `price_data` with an over-long company name. -/
def pdW : List (String × List Obs) := [(longName, df1)]

theorem c8_one_sheet_per_company_witness :
    (excelExport pdW).map Prod.snd = pdW.map Prod.snd ∧
    (String.mk (longName.data.take 30)).length ≤ 30 :=
  ⟨(c8_one_sheet_per_company pdW).2.1,
   (c8_one_sheet_per_company pdW).2.2.2 (String.mk (longName.data.take 30), df1)
     (by decide)⟩

end StockApp
